import Mathlib

set_option autoImplicit false

/-
Verification development for the `copilot_image_ai` package
(campaign image generation).  The Python sources under
`src/copilot_image_ai/` are shallowly embedded: Python dicts become
association lists (unique keys by construction), Python floats become
rationals, images become a structure of width, height and an abstract
pixel map, and the external pixel-level primitives of Pillow and
OpenCV become uninterpreted function fields of a `PILOps` record.
Fallible operations return `Except`.
-/

namespace CopilotImageAI

/-! ## Python dictionaries as association lists

A CPython `dict` keeps at most one entry per key.  We model a dict as a
`List (key × value)`; lookup returns the first matching entry,
assignment `d[k] = v` replaces the value of an existing key in place and
otherwise appends, matching insertion-order semantics. -/

/-- Model of `d.get(k)` / `d[k]` lookup on a Python dict. -/
def dictGet {α : Type} : List (String × α) → String → Option α
  | [], _ => none
  | (k0, v0) :: rest, k => if k0 = k then some v0 else dictGet rest k

/-- Model of `d[k] = v` on a Python dict: update in place, else append. -/
def dictSet {α : Type} : List (String × α) → String → α → List (String × α)
  | [], k, v => [(k, v)]
  | (k0, v0) :: rest, k, v =>
      if k0 = k then (k0, v) :: rest else (k0, v0) :: dictSet rest k v

/-- Model of `del d[k]` on a Python dict: remove the (single) entry. -/
def dictDel {α : Type} : List (String × α) → String → List (String × α)
  | [], _ => []
  | (k0, v0) :: rest, k =>
      if k0 = k then rest else (k0, v0) :: dictDel rest k

/-- Model of `d1.update(d2)` on Python dicts: assign every entry of `d2`. -/
def dictUpdate {α : Type} (d1 d2 : List (String × α)) : List (String × α) :=
  d2.foldl (fun acc kv => dictSet acc kv.1 kv.2) d1

theorem dictGet_dictSet {α : Type} (d : List (String × α)) (k k' : String) (v : α) :
    dictGet (dictSet d k v) k' = if k = k' then some v else dictGet d k' := by
  induction d with
  | nil =>
      by_cases h : k = k' <;> simp [dictSet, dictGet, h]
  | cons hd tl ih =>
      obtain ⟨k0, v0⟩ := hd
      by_cases h0 : k0 = k
      · subst h0
        by_cases h : k0 = k' <;> simp [dictSet, dictGet, h]
      · by_cases h : k0 = k'
        · subst h
          have hkk : ¬ k = k0 := fun he => h0 he.symm
          simp [dictSet, dictGet, h0, hkk]
        · simp [dictSet, dictGet, h0, h, ih]

theorem dictGet_eq_none_of_not_mem {α : Type} (d : List (String × α)) (k : String)
    (h : k ∉ d.map Prod.fst) : dictGet d k = none := by
  induction d with
  | nil => simp [dictGet]
  | cons hd tl ih =>
      obtain ⟨k0, v0⟩ := hd
      simp only [List.map_cons, List.mem_cons, not_or] at h
      have hne : ¬ k0 = k := fun he => h.1 he.symm
      simp only [dictGet, if_neg hne]
      exact ih h.2

theorem dictGet_dictDel {α : Type} (d : List (String × α)) (k : String)
    (hnd : (d.map Prod.fst).Nodup) : dictGet (dictDel d k) k = none := by
  induction d with
  | nil => simp [dictDel, dictGet]
  | cons hd tl ih =>
      obtain ⟨k0, v0⟩ := hd
      simp only [List.map_cons, List.nodup_cons] at hnd
      by_cases h0 : k0 = k
      · subst h0
        simp only [dictDel, if_pos rfl]
        exact dictGet_eq_none_of_not_mem tl k0 hnd.1
      · simp only [dictDel, if_neg h0, dictGet, if_neg h0]
        exact ih hnd.2

theorem dictGet_dictUpdate {α : Type} (d1 d2 : List (String × α)) (k : String)
    (hnd : (d2.map Prod.fst).Nodup) :
    dictGet (dictUpdate d1 d2) k = (dictGet d2 k).or (dictGet d1 k) := by
  induction d2 generalizing d1 with
  | nil => simp [dictUpdate, dictGet]
  | cons hd tl ih =>
      obtain ⟨k0, v0⟩ := hd
      simp only [List.map_cons, List.nodup_cons] at hnd
      have hstep : dictUpdate d1 ((k0, v0) :: tl) = dictUpdate (dictSet d1 k0 v0) tl := rfl
      rw [hstep, ih (dictSet d1 k0 v0) hnd.2, dictGet_dictSet]
      by_cases h : k0 = k
      · subst h
        rw [dictGet_eq_none_of_not_mem tl k0 (fun m => hnd.1 m)]
        simp [dictGet]
      · simp [dictGet, h]

/-! ## Python truthiness coercions

`template_manager.py` and `image_enhancer.py` use the Python idiom
`x or default`, which substitutes `default` whenever `x` is falsy:
`None`, the empty string, the empty collection, or the number zero. -/

/-- `x or default` for an optional Python `str` (`""` and `None` are falsy). -/
def pyOrStr (o : Option String) (d : String) : String :=
  match o with
  | none => d
  | some s => if s = "" then d else s

/-- `x or default` for an optional Python collection (empty and `None` are falsy);
used for both `dict` and `list` valued fields, whose defaults are empty. -/
def pyOrList {α : Type} (o : Option (List α)) (d : List α) : List α :=
  match o with
  | none => d
  | some l => if l.isEmpty then d else l

/-- `x or default` for an optional Python number (`0` and `None` are falsy). -/
def pyOrRat (o : Option ℚ) (d : ℚ) : ℚ :=
  match o with
  | none => d
  | some x => if x = 0 then d else x

/-- `x or default` for an optional Python `int` (`0` and `None` are falsy). -/
def pyOrInt (o : Option Int) (d : Int) : Int :=
  match o with
  | none => d
  | some x => if x = 0 then d else x

/-! ## Templates (`templates/template_manager.py`)

`Template.parameters` has Python type `Dict[str, Any]`; the claims only
ever move parameter values around, never compute with them, so values
are represented by `String`. -/

/-- State of a `Template` object after `Template.__init__` has run
(`template_manager.py`, lines 14-42): the falsy-coercion of the optional
arguments has already been applied, so every field holds a plain value. -/
structure Template where
  name : String
  description : String
  prompt : String
  negative_prompt : String
  style : String
  parameters : List (String × String)
  tags : List String
  deriving DecidableEq, Repr

/-- `Template.__init__` (`template_manager.py`, lines 14-42): the public
constructor; `negative_prompt or ""`, `style or "general"`,
`parameters or \x7b\x7d`, `tags or []`. -/
def Template.init (name description prompt : String)
    (negative_prompt style : Option String)
    (parameters : Option (List (String × String)))
    (tags : Option (List String)) : Template :=
  { name := name
    description := description
    prompt := prompt
    negative_prompt := pyOrStr negative_prompt ""
    style := pyOrStr style "general"
    parameters := pyOrList parameters []
    tags := pyOrList tags [] }

/-- The dictionary (JSON record) form of a template.  `from_dict` reads
the last four keys with `data.get(...)`, which yields `None` both for an
absent key and for an explicit `null`, hence the `Option` types; the
first three are read with mandatory `data[...]` indexing. -/
structure TemplateRecord where
  name : String
  description : String
  prompt : String
  negative_prompt : Option String
  style : Option String
  parameters : Option (List (String × String))
  tags : Option (List String)
  deriving DecidableEq, Repr

/-- `Template.to_dict` (`template_manager.py`, lines 59-69): every field is
emitted, so all optional slots of the record are present. -/
def Template.to_dict (t : Template) : TemplateRecord :=
  { name := t.name
    description := t.description
    prompt := t.prompt
    negative_prompt := some t.negative_prompt
    style := some t.style
    parameters := some t.parameters
    tags := some t.tags }

/-- `Template.from_dict` (`template_manager.py`, lines 71-82): reads the
record fields and feeds them back through the public constructor. -/
def Template.from_dict (data : TemplateRecord) : Template :=
  Template.init data.name data.description data.prompt
    data.negative_prompt data.style data.parameters data.tags

/-! ## The in-memory template store (`TemplateManager`)

`TemplateManager.templates` is a `Dict[str, Template]`; the file-system
side of `save_template`, `load_templates` and `delete_template` is not
modelled, only the in-memory collection. -/

/-- `TemplateManager.add_template` (lines 164-166):
`self.templates[template.name] = template`. -/
def TemplateManager.add_template (store : List (String × Template))
    (t : Template) : List (String × Template) :=
  dictSet store t.name t

/-- `TemplateManager.get_template` (lines 168-170):
`self.templates.get(name)`. -/
def TemplateManager.get_template (store : List (String × Template))
    (name : String) : Option Template :=
  dictGet store name

/-- `TemplateManager.delete_template` (lines 232-243), restricted to the
in-memory dict: if the name is present, delete it and return `true`,
otherwise return `false`; the pair carries the updated store. -/
def TemplateManager.delete_template (store : List (String × Template))
    (name : String) : Bool × List (String × Template) :=
  if (dictGet store name).isSome then (true, dictDel store name)
  else (false, store)

/-! ## `str.format` and `Template.format_prompt`

`Template.format_prompt` (lines 44-57) delegates to CPython's
`str.format(**kwargs)` and converts the `KeyError` of a missing keyword
into a `ValueError` naming the missing variable.  We embed the part of
`str.format` the templates exercise: `\x7b\x7b` and `\x7d\x7d` escapes produce
literal braces, `\x7bname\x7d` substitutes the keyword argument `name`
(processed left to right, failing at the first missing name), a single
unmatched brace is a format error.  Conversion and format-spec suffixes
(`!r`, `:>10`) and auto-numbered fields are not used by this repository's
prompts and are not distinguished: the whole text between the braces is
taken as the keyword. -/

/-- One parsed piece of a format string: a literal character or a
replacement field. -/
inductive Seg where
  | lit (c : Char)
  | field (name : String)
  deriving DecidableEq, Repr

/-- Errors of `Template.format_prompt`: `missingVariable k` is the
`ValueError("Missing required template variable: ...")` raised on a
`KeyError`, `invalidFormat` is the `ValueError` that `str.format` itself
raises for malformed braces (propagated uncaught). -/
inductive FormatError where
  | missingVariable (key : String)
  | invalidFormat
  deriving DecidableEq, Repr

/-- Parser for the brace syntax of `str.format`.  The second argument is
`none` outside a replacement field and `some acc` (reversed accumulated
name) inside one. -/
def parseFmt : List Char → Option (List Char) → Option (List Seg)
  | [], none => some []
  | [], some _ => none
  | [c], none =>
      if c = '{' then none
      else if c = '}' then none
      else some [Seg.lit c]
  | c :: c2 :: rest, none =>
      if c = '{' then
        if c2 = '{' then (parseFmt rest none).map (Seg.lit '{' :: ·)
        else parseFmt (c2 :: rest) (some [])
      else if c = '}' then
        if c2 = '}' then (parseFmt rest none).map (Seg.lit '}' :: ·)
        else none
      else (parseFmt (c2 :: rest) none).map (Seg.lit c :: ·)
  | c :: rest, some acc =>
      if c = '}' then (parseFmt rest none).map (Seg.field (String.mk acc.reverse) :: ·)
      else parseFmt rest (some (c :: acc))

/-- Left-to-right rendering of parsed segments against the keyword
arguments, failing with the first missing keyword, as CPython does. -/
def renderSegs : List Seg → List (String × String) → Except FormatError (List Char)
  | [], _ => .ok []
  | Seg.lit c :: rest, vars => (renderSegs rest vars).map (c :: ·)
  | Seg.field k :: rest, vars =>
      match dictGet vars k with
      | none => .error (.missingVariable k)
      | some v => (renderSegs rest vars).map (v.data ++ ·)

/-- Total rendering used to state what the substitution produces: every
field is replaced by its looked-up value (empty if absent). -/
def renderTotal : List Seg → List (String × String) → List Char
  | [], _ => []
  | Seg.lit c :: rest, vars => c :: renderTotal rest vars
  | Seg.field k :: rest, vars => ((dictGet vars k).getD "").data ++ renderTotal rest vars

/-- `Template.format_prompt` (`template_manager.py`, lines 44-57):
`self.prompt.format(**kwargs)` with `KeyError` mapped to the
missing-variable error. -/
def Template.format_prompt (t : Template) (vars : List (String × String)) :
    Except FormatError String :=
  match parseFmt t.prompt.data none with
  | none => .error .invalidFormat
  | some segs => (renderSegs segs vars).map String.mk

/-- The replacement fields (placeholder names, with multiplicity) of a
segment list. -/
def segFields : List Seg → List String
  | [] => []
  | Seg.lit _ :: rest => segFields rest
  | Seg.field k :: rest => k :: segFields rest

/-- The number of `\x7b...\x7d` replacement fields a string parses into
(`none` if it is not a valid format string). -/
def placeholderCount (s : String) : Option Nat :=
  (parseFmt s.data none).map (fun segs => (segFields segs).length)

/-! ## `ImageGenerator.generate_from_template` (`generators/image_generator.py`)

The method is modelled up to the point where it hands the formatted
prompt and the merged parameter dict to `self.generate`: torch and the
diffusion pipeline are beyond the program text being checked, and the
claim about the method only concerns the request it builds.
`generation_kwargs` values are strings, like `Template.parameters`. -/

/-- The prompt request `generate_from_template` assembles and passes to
`generate(prompt=prompt, **params)`. -/
structure PromptRequest where
  prompt : String
  params : List (String × String)
  deriving DecidableEq, Repr

/-- Errors surfaced by `generate_from_template` before generation:
the `ValueError("Template '...' not found")` of a failed lookup, or a
formatting error propagated out of `format_prompt`. -/
inductive GenError where
  | templateNotFound
  | formatError (e : FormatError)
  deriving DecidableEq, Repr

/-- `ImageGenerator.generate_from_template` (lines 164-199): look the
template up (a `Template` object is always truthy, so `if not template`
is exactly the `None` check), format the prompt, merge
`template.parameters` with the caller's kwargs (`params.update(...)`,
so the kwargs win), and default `negative_prompt` to the template's
stored value when the merged dict has none. -/
def ImageGenerator.generate_from_template
    (store : List (String × Template)) (template_name : String)
    (template_vars : List (String × String))
    (generation_kwargs : List (String × String)) :
    Except GenError PromptRequest :=
  match TemplateManager.get_template store template_name with
  | none => .error .templateNotFound
  | some t =>
      match t.format_prompt template_vars with
      | .error e => .error (.formatError e)
      | .ok prompt =>
          let params := dictUpdate t.parameters generation_kwargs
          let params :=
            if (dictGet params "negative_prompt").isSome then params
            else dictSet params "negative_prompt" t.negative_prompt
          .ok { prompt := prompt, params := params }

/-! ## Images and the enhancer (`enhancers/image_enhancer.py`)

A raster is its width, height and a pixel map (pixel values abstracted
to `Nat`; the enhancer always works on `RGB`-converted images, so
`_load_image` is the identity here).  Python floats are embedded as
rationals: every comparison the enhancer performs on them
(`amount <= 0`, `brightness != 0.0`, `contrast != 1.0`, `x or default`)
is exact at the values involved.  The pixel-level primitives of Pillow
and OpenCV (`Image.resize` resampling, `ImageFilter.UnsharpMask`,
`ImageEnhance.Color/Contrast/Brightness`, `cv2.fastNlMeansDenoisingColored`)
are uninterpreted pixel functions collected in `PILOps`; what the model
commits to is only their dimension behaviour, which Pillow and OpenCV
guarantee (filters and point enhancers preserve the size, `resize`
returns exactly the requested size). -/

/-- A raster image: dimensions plus an abstract pixel map. -/
structure Image where
  width : Nat
  height : Nat
  pix : Nat → Nat → Nat

/-- Uninterpreted pixel-level primitives of the external imaging
libraries.  Each takes the source image and the parameters the Python
code passes, and yields the pixel map of the result. -/
structure PILOps where
  lanczosPix : Image → Nat → Nat → Nat → Nat → Nat
  nlMeansPix : Image → Int → Nat → Nat → Nat
  unsharpPix : Image → Nat → Int → Nat → Nat → Nat → Nat
  colorPix : Image → ℚ → Nat → Nat → Nat
  contrastPix : Image → ℚ → Nat → Nat → Nat
  brightnessPix : Image → ℚ → Nat → Nat → Nat

/-- Failures of the enhancer pipeline.  `invalidDimensions` is the
`ValueError("height and width must be > 0")` that Pillow's `resize`
raises for a non-positive target size. -/
inductive EnhanceError where
  | invalidDimensions
  deriving DecidableEq, Repr

/-- Python `int(x)` on a float: truncation toward zero. -/
def pyInt (q : ℚ) : Int := q.num / (q.den : Int)

/-- `_load_image` (lines 119-128): the input is already a raster here,
and `convert('RGB')` does not change an RGB raster. -/
def loadImage (img : Image) : Image := img

/-- `PIL.Image.resize(size, LANCZOS)` as called by `_upscale` (Pillow
9.1+, required by the `Image.Resampling` enum the code uses): a target
size equal to the source size returns a copy of the image; a
non-positive target dimension raises
`ValueError("height and width must be > 0")`; otherwise the result has
exactly the requested size with resampled pixels. -/
def pilResize (ops : PILOps) (img : Image) (tw th : Int) : Except EnhanceError Image :=
  if tw = (img.width : Int) ∧ th = (img.height : Int) then .ok img
  else if tw < 1 ∨ th < 1 then .error .invalidDimensions
  else .ok { width := tw.toNat, height := th.toNat
             pix := fun x y => ops.lanczosPix img tw.toNat th.toNat x y }

/-- `ImageEnhancer._upscale` (lines 130-133):
`new_size = (width * factor, height * factor)` then LANCZOS resize. -/
def upscaleF (ops : PILOps) (img : Image) (factor : Int) : Except EnhanceError Image :=
  pilResize ops img ((img.width : Int) * factor) ((img.height : Int) * factor)

/-- `ImageEnhancer._denoise` (lines 135-145): `h = int(strength * 30)`,
then `cv2.fastNlMeansDenoisingColored(..., h, h, 7, 21)`; size preserved. -/
def denoiseF (ops : PILOps) (img : Image) (strength : ℚ) : Image :=
  { width := img.width, height := img.height
    pix := fun x y => ops.nlMeansPix img (pyInt (strength * 30)) x y }

/-- `ImageEnhancer._sharpen` (lines 147-161): identity for
`amount <= 0`, otherwise `UnsharpMask(radius=2, percent=int(amount*150),
threshold=3)`; size preserved. -/
def sharpenF (ops : PILOps) (img : Image) (amount : ℚ) : Image :=
  if amount ≤ 0 then img
  else
    { width := img.width, height := img.height
      pix := fun x y => ops.unsharpPix img 2 (pyInt (amount * 150)) 3 x y }

/-- `ImageEnhancer._enhance_color` (lines 163-166):
`ImageEnhance.Color(image).enhance(1.3)`. -/
def colorF (ops : PILOps) (img : Image) (factor : ℚ) : Image :=
  { width := img.width, height := img.height
    pix := fun x y => ops.colorPix img factor x y }

/-- `ImageEnhancer._enhance_contrast` (lines 168-171):
`ImageEnhance.Contrast(image).enhance(1.2)`. -/
def contrastF (ops : PILOps) (img : Image) (factor : ℚ) : Image :=
  { width := img.width, height := img.height
    pix := fun x y => ops.contrastPix img factor x y }

/-- `ImageEnhancer._adjust_brightness` (lines 173-177):
`ImageEnhance.Brightness(image).enhance(1.0 + adjustment)`. -/
def brightnessF (ops : PILOps) (img : Image) (adjustment : ℚ) : Image :=
  { width := img.width, height := img.height
    pix := fun x y => ops.brightnessPix img (1 + adjustment) x y }

/-- The `enhancement.*` entries of `Config.DEFAULT_CONFIG`
(`config.py`, lines 22-27), possibly overridden by a custom YAML file. -/
structure EnhConfig where
  upscale_factor : Int
  denoise_strength : ℚ
  sharpen_amount : ℚ
  color_enhance : Bool
  deriving DecidableEq, Repr

/-- The shipped defaults of `Config.DEFAULT_CONFIG` (`config.py`):
`upscale_factor: 2, denoise_strength: 0.3, sharpen_amount: 0.5,
color_enhance: True`. -/
def defaultEnhConfig : EnhConfig :=
  { upscale_factor := 2
    denoise_strength := 3 / 10
    sharpen_amount := 1 / 2
    color_enhance := true }

/-- The keyword arguments of `ImageEnhancer.enhance` (lines 38-50),
with their Python defaults recorded as Lean default field values. -/
structure EnhanceArgs where
  upscale_factor : Option Int := none
  denoise : Bool := true
  denoise_strength : Option ℚ := none
  sharpen : Bool := true
  sharpen_amount : Option ℚ := none
  color_enhance : Option Bool := none
  contrast_enhance : Bool := true
  brightness_adjust : Option ℚ := none
  deriving DecidableEq, Repr

/-- `ImageEnhancer.enhance` (lines 38-117), without the final optional
file save.  Lines 73-76 resolve missing parameters from the config:
`upscale_factor`, `denoise_strength` and `sharpen_amount` via the Python
`or` idiom (so an explicit falsy `0` is also replaced by the config
value), `color_enhance` via a proper `is not None` test.  Steps then run
in the fixed order upscale, denoise, color, contrast, brightness,
sharpen, each guarded by its flag (`if upscale_factor and
upscale_factor > 1`, `if brightness_adjust` being truthiness tests). -/
def ImageEnhancer.enhance (ops : PILOps) (cfg : EnhConfig) (args : EnhanceArgs)
    (image : Image) : Except EnhanceError Image :=
  let img := loadImage image
  let upscale_factor := pyOrInt args.upscale_factor cfg.upscale_factor
  let denoise_strength := pyOrRat args.denoise_strength cfg.denoise_strength
  let sharpen_amount := pyOrRat args.sharpen_amount cfg.sharpen_amount
  let color_enhance := args.color_enhance.getD cfg.color_enhance
  match (if 1 < upscale_factor then upscaleF ops img upscale_factor else .ok img) with
  | .error e => .error e
  | .ok img1 =>
      let img2 := if args.denoise then denoiseF ops img1 denoise_strength else img1
      let img3 := if color_enhance then colorF ops img2 (13 / 10) else img2
      let img4 := if args.contrast_enhance then contrastF ops img3 (6 / 5) else img3
      let img5 :=
        match args.brightness_adjust with
        | none => img4
        | some b => if b = 0 then img4 else brightnessF ops img4 b
      let img6 := if args.sharpen then sharpenF ops img5 sharpen_amount else img5
      .ok img6

/-- The list of enabled post-upscale steps of `enhance`, in the order the
source applies them: denoise, color, contrast, brightness, sharpen.  A
disabled step contributes nothing to the list. -/
def enabledSteps (ops : PILOps) (cfg : EnhConfig) (args : EnhanceArgs) :
    List (Image → Image) :=
  (if args.denoise then
      [fun i => denoiseF ops i (pyOrRat args.denoise_strength cfg.denoise_strength)]
    else []) ++
  (if args.color_enhance.getD cfg.color_enhance then
      [fun i => colorF ops i (13 / 10)]
    else []) ++
  (if args.contrast_enhance then [fun i => contrastF ops i (6 / 5)] else []) ++
  (match args.brightness_adjust with
    | none => []
    | some b => if b = 0 then [] else [fun i => brightnessF ops i b]) ++
  (if args.sharpen then
      [fun i => sharpenF ops i (pyOrRat args.sharpen_amount cfg.sharpen_amount)]
    else [])

/-- `ImageEnhancer.super_resolution` (lines 203-237), without the
optional file save: load, `_upscale(img, scale)`, then
`_sharpen(result, 0.3)`.  The config is threaded through because the
method reads it for saving, but the computation never consults it. -/
def ImageEnhancer.super_resolution (ops : PILOps) (cfg : EnhConfig)
    (image : Image) (scale : Int) : Except EnhanceError Image :=
  let img := loadImage image
  (upscaleF ops img scale).map (fun result => sharpenF ops result (3 / 10))

/-- `ImageEnhancer.adjust_lighting` (lines 267-303), without the optional
file save: brightness then contrast, each skipped at its neutral point
(`if brightness != 0.0`, `if contrast != 1.0`). -/
def ImageEnhancer.adjust_lighting (ops : PILOps) (image : Image)
    (brightness contrast : ℚ) : Image :=
  let img := loadImage image
  let img2 := if brightness ≠ 0 then brightnessF ops img brightness else img
  if contrast ≠ 1 then contrastF ops img2 contrast else img2

/-! ## Auxiliary store lemmas -/

theorem mem_keys_dictSet {α : Type} (d : List (String × α)) (k x : String) (v : α)
    (hx : x ∈ (dictSet d k v).map Prod.fst) : x ∈ d.map Prod.fst ∨ x = k := by
  induction d with
  | nil => simpa [dictSet] using hx
  | cons hd tl ih =>
      obtain ⟨k0, v0⟩ := hd
      by_cases h0 : k0 = k
      · simp only [dictSet, if_pos h0, List.map_cons, List.mem_cons] at hx ⊢
        tauto
      · simp only [dictSet, if_neg h0, List.map_cons, List.mem_cons] at hx ⊢
        rcases hx with h | h
        · exact Or.inl (Or.inl h)
        · rcases ih h with h' | h'
          · exact Or.inl (Or.inr h')
          · exact Or.inr h'

theorem nodup_keys_dictSet {α : Type} (d : List (String × α)) (k : String) (v : α)
    (hnd : (d.map Prod.fst).Nodup) : ((dictSet d k v).map Prod.fst).Nodup := by
  induction d with
  | nil => simp [dictSet]
  | cons hd tl ih =>
      obtain ⟨k0, v0⟩ := hd
      simp only [List.map_cons, List.nodup_cons] at hnd
      by_cases h0 : k0 = k
      · simp only [dictSet, if_pos h0, List.map_cons, List.nodup_cons]
        exact ⟨hnd.1, hnd.2⟩
      · simp only [dictSet, if_neg h0, List.map_cons, List.nodup_cons]
        refine ⟨fun hmem => ?_, ih hnd.2⟩
        rcases mem_keys_dictSet tl k k0 v hmem with h | h
        · exact hnd.1 h
        · exact h0 h

/-! ## Claim theorems -/

/-- Claim C1: for every template constructed through the public
constructor — any name, description and prompt, any optional negative
prompt, style, parameters and tags — deserialising its serialised
record reproduces every field exactly:
`from_dict (to_dict t) = t` field-for-field. -/
theorem c1_template_roundtrip (name description prompt : String)
    (negative_prompt style : Option String)
    (parameters : Option (List (String × String)))
    (tags : Option (List String)) :
    Template.from_dict (Template.to_dict
        (Template.init name description prompt negative_prompt style parameters tags))
      = Template.init name description prompt negative_prompt style parameters tags := by
  have hnp : pyOrStr (some (pyOrStr negative_prompt "")) "" = pyOrStr negative_prompt "" := by
    cases negative_prompt with
    | none => simp [pyOrStr]
    | some s => by_cases h : s = "" <;> simp [pyOrStr, h]
  have hst : pyOrStr (some (pyOrStr style "general")) "general" = pyOrStr style "general" := by
    cases style with
    | none => simp [pyOrStr]
    | some s => by_cases h : s = "" <;> simp [pyOrStr, h]
  have hpa : pyOrList (some (pyOrList parameters ([] : List (String × String)))) []
      = pyOrList parameters [] := by
    cases parameters with
    | none => simp [pyOrList]
    | some l => cases l <;> simp [pyOrList]
  have htg : pyOrList (some (pyOrList tags ([] : List String))) [] = pyOrList tags [] := by
    cases tags with
    | none => simp [pyOrList]
    | some l => cases l <;> simp [pyOrList]
  simp [Template.from_dict, Template.to_dict, Template.init, hnp, hst, hpa, htg]

/-- Claim C10: deserialisation coerces falsy present values, not only
absent ones — a present-but-empty `style` becomes `"general"`, a
present-but-empty `parameters` or `tags` becomes the empty default, a
null `negative_prompt` becomes `""`; consequently
`to_dict (from_dict r)` does not reproduce such a record verbatim. -/
theorem c10_falsy_coercion (r : TemplateRecord) :
    (r.style = some "" → (Template.from_dict r).style = "general")
    ∧ (r.parameters = some [] → (Template.from_dict r).parameters = [])
    ∧ (r.tags = some [] → (Template.from_dict r).tags = [])
    ∧ (r.negative_prompt = none → (Template.from_dict r).negative_prompt = "")
    ∧ (r.style = some "" → Template.to_dict (Template.from_dict r) ≠ r) := by
  refine ⟨?_, ?_, ?_, ?_, ?_⟩
  · intro h
    simp [Template.from_dict, Template.init, pyOrStr, h]
  · intro h
    simp [Template.from_dict, Template.init, pyOrList, h]
  · intro h
    simp [Template.from_dict, Template.init, pyOrList, h]
  · intro h
    simp [Template.from_dict, Template.init, pyOrStr, h]
  · intro h heq
    have hs := congrArg TemplateRecord.style heq
    rw [h] at hs
    simp [Template.to_dict, Template.from_dict, Template.init, pyOrStr, h] at hs

/-- A concrete record whose optional fields are present but falsy
(empty style, empty parameters and tags) or null (negative prompt). -/
def falsyRecord : TemplateRecord :=
  { name := "n"
    description := "d"
    prompt := "p"
    negative_prompt := none
    style := some ""
    parameters := some []
    tags := some [] }

/-- Witness for C10 at a concrete record with empty style, empty
parameters and tags, and a missing negative prompt. -/
theorem c10_falsy_coercion_witness :
    (Template.from_dict falsyRecord).style = "general"
    ∧ (Template.from_dict falsyRecord).negative_prompt = ""
    ∧ Template.to_dict (Template.from_dict falsyRecord) ≠ falsyRecord := by
  obtain ⟨h1, h2, h3, h4, h5⟩ := c10_falsy_coercion falsyRecord
  exact ⟨h1 rfl, h4 rfl, h5 rfl⟩

/-- Claim C8: on any store whose keys are (as in every reachable Python
dict) free of duplicates, `add` followed by `get` of the same name
returns exactly the template added; `delete` of that name then returns
`true` and a subsequent `get` returns `none`; `delete` of an absent name
returns `false` and leaves the store unchanged. -/
theorem c8_store_add_get_delete (store : List (String × Template))
    (t : Template) (other : String)
    (hnd : (store.map Prod.fst).Nodup) :
    TemplateManager.get_template (TemplateManager.add_template store t) t.name = some t
    ∧ (TemplateManager.delete_template (TemplateManager.add_template store t) t.name).1 = true
    ∧ TemplateManager.get_template
        (TemplateManager.delete_template (TemplateManager.add_template store t) t.name).2
        t.name = none
    ∧ (TemplateManager.get_template store other = none →
        TemplateManager.delete_template store other = (false, store)) := by
  have hget : dictGet (dictSet store t.name t) t.name = some t := by
    rw [dictGet_dictSet]
    simp
  refine ⟨hget, ?_, ?_, ?_⟩
  · simp [TemplateManager.delete_template, TemplateManager.add_template, hget]
  · have hdel : (TemplateManager.delete_template (dictSet store t.name t) t.name).2
        = dictDel (dictSet store t.name t) t.name := by
      simp [TemplateManager.delete_template, hget]
    simp only [TemplateManager.add_template, TemplateManager.get_template, hdel]
    exact dictGet_dictDel _ _ (nodup_keys_dictSet store t.name t hnd)
  · intro h
    simp [TemplateManager.delete_template, TemplateManager.get_template] at h ⊢
    simp [h]

/-- Witness for C8 on a concrete two-template store. -/
theorem c8_store_add_get_delete_witness :
    TemplateManager.get_template
        (TemplateManager.add_template
          [("a", Template.init "a" "" "" none none none none)]
          (Template.init "b" "desc" "pr {x}" none none none none))
        "b"
      = some (Template.init "b" "desc" "pr {x}" none none none none)
    ∧ TemplateManager.delete_template
        [("a", Template.init "a" "" "" none none none none)] "zzz"
      = (false, [("a", Template.init "a" "" "" none none none none)]) := by
  obtain ⟨h1, h2, h3, h4⟩ := c8_store_add_get_delete
    [("a", Template.init "a" "" "" none none none none)]
    (Template.init "b" "desc" "pr {x}" none none none none) "zzz" (by decide)
  exact ⟨h1, h4 rfl⟩

/-- A literal segment that is not an escaped brace (field segments
qualify trivially). -/
def litNotBrace (s : Seg) : Bool :=
  match s with
  | .lit c => c ≠ '{' && c ≠ '}'
  | .field _ => true

/-- A field segment whose substituted value contains no brace characters
(literal segments qualify trivially). -/
def fieldValueNotBrace (vars : List (String × String)) (s : Seg) : Bool :=
  match s with
  | .field k => ((dictGet vars k).getD "").data.all (fun c => c ≠ '{' && c ≠ '}')
  | .lit _ => true

theorem renderSegs_ok (segs : List Seg) (vars : List (String × String))
    (h : ∀ k ∈ segFields segs, (dictGet vars k).isSome) :
    renderSegs segs vars = .ok (renderTotal segs vars) := by
  induction segs with
  | nil => simp [renderSegs, renderTotal]
  | cons s rest ih =>
      cases s with
      | lit c =>
          rw [renderSegs, ih (fun k hk => h k (by simpa [segFields] using hk))]
          simp [renderTotal, Except.map]
      | field k =>
          have hk := h k (by simp [segFields])
          obtain ⟨v, hv⟩ := Option.isSome_iff_exists.mp hk
          rw [renderSegs, hv, ih (fun k' hk' => h k' (by simp [segFields, hk']))]
          simp [renderTotal, hv, Except.map]

theorem renderSegs_missing (segs : List Seg) (vars : List (String × String))
    (h : ∃ k ∈ segFields segs, dictGet vars k = none) :
    ∃ k, k ∈ segFields segs ∧ dictGet vars k = none
      ∧ renderSegs segs vars = .error (.missingVariable k) := by
  induction segs with
  | nil => simp [segFields] at h
  | cons s rest ih =>
      cases s with
      | lit c =>
          have h' : ∃ k ∈ segFields rest, dictGet vars k = none := by
            simpa [segFields] using h
          obtain ⟨k, hk1, hk2, hk3⟩ := ih h'
          exact ⟨k, by simp [segFields, hk1], hk2, by simp [renderSegs, hk3, Except.map]⟩
      | field k0 =>
          cases hd : dictGet vars k0 with
          | none =>
              exact ⟨k0, by simp [segFields], hd, by simp [renderSegs, hd]⟩
          | some v =>
              have h' : ∃ k ∈ segFields rest, dictGet vars k = none := by
                obtain ⟨k, hk1, hk2⟩ := h
                simp only [segFields, List.mem_cons] at hk1
                rcases hk1 with rfl | hk1
                · rw [hd] at hk2
                  cases hk2
                · exact ⟨k, hk1, hk2⟩
              obtain ⟨k, hk1, hk2, hk3⟩ := ih h'
              exact ⟨k, by simp [segFields, hk1], hk2,
                by simp [renderSegs, hd, hk3, Except.map]⟩

theorem parseFmt_lit_cons (c : Char) (rest : List Char) (h1 : c ≠ '{') (h2 : c ≠ '}') :
    parseFmt (c :: rest) none = (parseFmt rest none).map (Seg.lit c :: ·) := by
  cases rest with
  | nil => simp [parseFmt, h1, h2]
  | cons c2 rest2 => simp [parseFmt, h1, h2]

theorem parseFmt_of_braceFree (cs : List Char) (h : ∀ c ∈ cs, c ≠ '{' ∧ c ≠ '}') :
    parseFmt cs none = some (cs.map Seg.lit) := by
  induction cs with
  | nil => simp [parseFmt]
  | cons c rest ih =>
      have hc := h c (by simp)
      rw [parseFmt_lit_cons c rest hc.1 hc.2, ih (fun c' hc' => h c' (by simp [hc']))]
      rfl

theorem segFields_map_lit (cs : List Char) : segFields (cs.map Seg.lit) = [] := by
  induction cs with
  | nil => simp [segFields]
  | cons c rest ih => simp [segFields, ih]

theorem renderTotal_braceFree (segs : List Seg) (vars : List (String × String))
    (hl : ∀ s ∈ segs, litNotBrace s)
    (hv : ∀ s ∈ segs, fieldValueNotBrace vars s) :
    ∀ c ∈ renderTotal segs vars, c ≠ '{' ∧ c ≠ '}' := by
  induction segs with
  | nil => simp [renderTotal]
  | cons s rest ih =>
      have ih' := ih (fun s' hs' => hl s' (by simp [hs'])) (fun s' hs' => hv s' (by simp [hs']))
      cases s with
      | lit c0 =>
          intro c hc
          have hl0 := hl (.lit c0) (by simp)
          simp only [litNotBrace, Bool.and_eq_true, decide_eq_true_eq, ne_eq,
            Bool.decide_and] at hl0
          simp only [renderTotal, List.mem_cons] at hc
          rcases hc with rfl | hc
          · constructor
            · intro he
              rw [he] at hl0
              simp at hl0
            · intro he
              rw [he] at hl0
              simp at hl0
          · exact ih' c hc
      | field k =>
          intro c hc
          simp only [renderTotal, List.mem_append] at hc
          rcases hc with hc | hc
          · have hv0 := hv (.field k) (by simp)
            simp only [fieldValueNotBrace, List.all_eq_true] at hv0
            have := hv0 c hc
            simpa using this
          · exact ih' c hc

/-- Claim C2: for every template whose prompt is a well-formed format
string, and every variables mapping: if every placeholder of the prompt
has a corresponding entry, `format_prompt` returns the prompt with every
placeholder occurrence substituted (unused entries ignored), and — as
long as neither the substituted values nor escaped braces re-introduce
brace characters — the result parses with zero remaining replacement
fields; if some placeholder has no entry, `format_prompt` fails with the
missing-variable error naming a missing key. -/
theorem c2_format_prompt_spec (t : Template) (vars : List (String × String))
    (segs : List Seg) (hp : parseFmt t.prompt.data none = some segs) :
    ((∀ k ∈ segFields segs, (dictGet vars k).isSome) →
        t.format_prompt vars = .ok (String.mk (renderTotal segs vars))
        ∧ ((∀ s ∈ segs, litNotBrace s) → (∀ s ∈ segs, fieldValueNotBrace vars s) →
            placeholderCount (String.mk (renderTotal segs vars)) = some 0))
    ∧ ((∃ k ∈ segFields segs, dictGet vars k = none) →
        ∃ k, k ∈ segFields segs ∧ dictGet vars k = none
          ∧ t.format_prompt vars = .error (.missingVariable k)) := by
  constructor
  · intro hall
    constructor
    · simp only [Template.format_prompt, hp]
      rw [renderSegs_ok segs vars hall]
      rfl
    · intro hl hv
      have hbf := renderTotal_braceFree segs vars hl hv
      unfold placeholderCount
      have hd : (String.mk (renderTotal segs vars)).data = renderTotal segs vars := rfl
      rw [hd, parseFmt_of_braceFree _ hbf]
      simp [segFields_map_lit]
  · intro hmiss
    obtain ⟨k, hk1, hk2, hk3⟩ := renderSegs_missing segs vars hmiss
    refine ⟨k, hk1, hk2, ?_⟩
    simp only [Template.format_prompt, hp]
    rw [hk3]
    rfl

/-- Witness for C2: a prompt with a repeated placeholder and an unused
variable formats fully with no placeholder left, and dropping the entry
for `b` fails with the missing-variable error naming `b`. -/
theorem c2_format_prompt_spec_witness :
    Template.format_prompt
        (Template.init "t" "" "hi {a}, {a}{b}" none none none none)
        [("a", "A"), ("b", "B"), ("c", "C")]
      = .ok "hi A, AB"
    ∧ placeholderCount "hi A, AB" = some 0
    ∧ Template.format_prompt
        (Template.init "t" "" "hi {a}, {a}{b}" none none none none)
        [("a", "A")]
      = .error (.missingVariable "b") := by
  have hsucc := (c2_format_prompt_spec
    (Template.init "t" "" "hi {a}, {a}{b}" none none none none)
    [("a", "A"), ("b", "B"), ("c", "C")]
    [.lit 'h', .lit 'i', .lit ' ', .field "a", .lit ',', .lit ' ', .field "a", .field "b"]
    rfl).1 (by decide)
  have hmiss := (c2_format_prompt_spec
    (Template.init "t" "" "hi {a}, {a}{b}" none none none none)
    [("a", "A")]
    [.lit 'h', .lit 'i', .lit ' ', .field "a", .lit ',', .lit ' ', .field "a", .field "b"]
    rfl).2 ⟨"b", by decide, rfl⟩
  obtain ⟨k, hk1, hk2, hk3⟩ := hmiss
  have hkb : k = "b" := by
    simp only [segFields, List.mem_cons, List.not_mem_nil, or_false] at hk1
    rcases hk1 with rfl | rfl | rfl
    · simp [dictGet] at hk2
    · simp [dictGet] at hk2
    · rfl
  subst hkb
  refine ⟨hsucc.1, ?_, hk3⟩
  have hcount := hsucc.2 (by decide) (by decide)
  exact hcount

/-- Claim C9: `adjust_lighting` at the neutral points (brightness 0,
contrast 1) short-circuits both adjustments and returns the input
raster unchanged. -/
theorem c9_adjust_lighting_neutral (ops : PILOps) (img : Image) :
    ImageEnhancer.adjust_lighting ops img 0 1 = img := by
  simp [ImageEnhancer.adjust_lighting, loadImage]

/-- Claim C5: `enhance` applies the enabled steps in the fixed source
order — upscale, then denoise, then color, then contrast, then
brightness, then sharpen: its result is the (possibly failing) upscale
stage followed by the left fold of exactly the enabled step functions in
that order, each consuming the previous step's output. -/
theorem c5_enhance_fixed_order (ops : PILOps) (cfg : EnhConfig) (args : EnhanceArgs)
    (img : Image) :
    ImageEnhancer.enhance ops cfg args img =
      (if 1 < pyOrInt args.upscale_factor cfg.upscale_factor
          then upscaleF ops (loadImage img) (pyOrInt args.upscale_factor cfg.upscale_factor)
          else Except.ok (loadImage img)).map
        (fun i => (enabledSteps ops cfg args).foldl (fun a f => f a) i) := by
  obtain ⟨uf, dn, ds, sh, sa, ce, ct, ba⟩ := args
  simp only [ImageEnhancer.enhance, enabledSteps]
  cases he : (if 1 < pyOrInt uf cfg.upscale_factor
      then upscaleF ops (loadImage img) (pyOrInt uf cfg.upscale_factor)
      else Except.ok (loadImage img)) with
  | error e => simp [Except.map]
  | ok i =>
      simp only [Except.map]
      rcases ba with _ | b
      · cases dn <;> cases hce : ce.getD cfg.color_enhance <;> cases ct <;> cases sh <;>
          simp [hce, List.foldl_append, List.foldl]
      · by_cases hb : b = 0 <;>
          cases dn <;> cases hce : ce.getD cfg.color_enhance <;> cases ct <;> cases sh <;>
          simp [hce, hb, List.foldl_append, List.foldl]

/-! ### Concrete instances used by witnesses and counterexamples -/

/-- A concrete interpretation of the external primitives: resampling,
denoising and the point enhancers keep pixel values, the unsharp mask
increments them (so sharpening is observably not the identity). -/
def opsDemo : PILOps :=
  { lanczosPix := fun img _ _ x y => img.pix x y
    nlMeansPix := fun img _ x y => img.pix x y
    unsharpPix := fun img _ _ _ x y => img.pix x y + 1
    colorPix := fun img _ x y => img.pix x y
    contrastPix := fun img _ x y => img.pix x y
    brightnessPix := fun img _ x y => img.pix x y }

/-- A 1-by-1 all-zero raster. -/
def demoImage : Image := { width := 1, height := 1, pix := fun _ _ => 0 }

/-- A 0-by-5 raster (zero width, positive height). -/
def zeroWidthImage : Image := { width := 0, height := 5, pix := fun _ _ => 0 }

/-- A 0-by-0 raster. -/
def zeroZeroImage : Image := { width := 0, height := 0, pix := fun _ _ => 0 }

/-- A 100-by-100 all-zero raster. -/
def hundredImage : Image := { width := 100, height := 100, pix := fun _ _ => 0 }

/-- The shipped configuration with upscaling disabled
(`enhancement.upscale_factor: 0` via a YAML override), so that the
no-upscale premise of C3 is realisable. -/
def noUpscaleConfig : EnhConfig := { defaultEnhConfig with upscale_factor := 0 }

/-- `enhance` keyword arguments with every step disabled and the sharpen
call path skipped (`sharpen=False`). -/
def sharpenOffArgs : EnhanceArgs :=
  { upscale_factor := none
    denoise := false
    denoise_strength := none
    sharpen := false
    sharpen_amount := none
    color_enhance := some false
    contrast_enhance := false
    brightness_adjust := none }

/-- Same as `sharpenOffArgs` but with `sharpen=True, sharpen_amount=0.0`. -/
def sharpenZeroArgs : EnhanceArgs :=
  { sharpenOffArgs with sharpen := true, sharpen_amount := some 0 }

/-- `enhance` keyword arguments requesting only an upscale by 2, all
other parameters left at their Python defaults. -/
def upscaleTwoArgs : EnhanceArgs := { upscale_factor := some 2 }

/-- Projection used to tell two enhancement results apart: the pixel of
the produced image at the origin. -/
def pixProbe (r : Except EnhanceError Image) : Nat :=
  match r with
  | .ok i => i.pix 0 0
  | .error _ => 0

/-- Whether an enhancement result is a success. -/
def isOkE (r : Except EnhanceError Image) : Bool :=
  match r with
  | .ok _ => true
  | .error _ => false

/-- Claim C3 concerns `enhance` with every step disabled versus
`sharpen=True, sharpen_amount=0.0`.  The code resolves
`sharpen_amount = sharpen_amount or self.config.get(...)`, so the
explicit falsy `0.0` IS silently replaced by the configured default
(`0.5` as shipped) and the unsharp mask is applied: the two runs are not
bit-identical, contradicting the claim (and the intent visible in
`_sharpen`'s own `amount <= 0` no-op guard).  This theorem evaluates the
code at the failing input: the all-disabled run returns the raster
unchanged, the `sharpen_amount=0` run resolves the amount to the config
default `0.5` and sharpens, and the results differ. -/
theorem c3_sharpen_zero_replaced_by_default :
    ImageEnhancer.enhance opsDemo noUpscaleConfig sharpenOffArgs demoImage
        = .ok demoImage
    ∧ pyOrRat (some 0) noUpscaleConfig.sharpen_amount = noUpscaleConfig.sharpen_amount
    ∧ ImageEnhancer.enhance opsDemo noUpscaleConfig sharpenZeroArgs demoImage
        = .ok (sharpenF opsDemo demoImage noUpscaleConfig.sharpen_amount)
    ∧ ImageEnhancer.enhance opsDemo noUpscaleConfig sharpenZeroArgs demoImage
        ≠ ImageEnhancer.enhance opsDemo noUpscaleConfig sharpenOffArgs demoImage := by
  have c1 : ImageEnhancer.enhance opsDemo noUpscaleConfig sharpenOffArgs demoImage
      = .ok demoImage := rfl
  have c3 : ImageEnhancer.enhance opsDemo noUpscaleConfig sharpenZeroArgs demoImage
      = .ok (sharpenF opsDemo demoImage noUpscaleConfig.sharpen_amount) := rfl
  refine ⟨c1, rfl, c3, ?_⟩
  intro h
  have hok : (Except.ok (sharpenF opsDemo demoImage noUpscaleConfig.sharpen_amount)
      : Except EnhanceError Image) = .ok demoImage := c3.symm.trans (h.trans c1)
  have himg : sharpenF opsDemo demoImage noUpscaleConfig.sharpen_amount = demoImage := by
    simpa using hok
  have hpix := congrArg (fun i => i.pix 0 0) himg
  have hval : (sharpenF opsDemo demoImage noUpscaleConfig.sharpen_amount).pix 0 0 = 1 := by
    show (sharpenF opsDemo demoImage (1 / 2)).pix 0 0 = 1
    simp only [sharpenF]
    rw [if_neg (by norm_num : ¬ ((1 : ℚ) / 2) ≤ 0)]
    rfl
  have h10 : (1 : Nat) = 0 := hval.symm.trans hpix
  exact one_ne_zero h10

/-- Claim C4, amended to rasters with exactly one zero dimension: for
every raster whose width xor height is zero and every requested upscale
factor greater than one, `enhance` fails with the dimension error at the
upscale stage, before any other enhancement step, and produces no
image.  (A 0-by-0 raster is excluded: there the upscaled target size
equals the source size and Pillow's `resize` returns a copy instead of
raising — see the counterexample.) -/
theorem c4_upscale_zero_dim_error (ops : PILOps) (cfg : EnhConfig) (args : EnhanceArgs)
    (img : Image) (f : Int)
    (hf : args.upscale_factor = some f) (h1 : 1 < f)
    (hz : (img.width = 0 ∧ 0 < img.height) ∨ (0 < img.width ∧ img.height = 0)) :
    ImageEnhancer.enhance ops cfg args img = .error .invalidDimensions := by
  have hff : pyOrInt args.upscale_factor cfg.upscale_factor = f := by
    rw [hf]
    simp only [pyOrInt]
    rw [if_neg (by omega)]
  have hup : upscaleF ops (loadImage img) f = .error .invalidDimensions := by
    unfold upscaleF pilResize loadImage
    rcases hz with ⟨hw, hh⟩ | ⟨hw, hh⟩
    · have hh1 : (1 : Int) ≤ (img.height : Int) := by exact_mod_cast hh
      have hne : ¬((img.width : Int) * f = (img.width : Int)
          ∧ (img.height : Int) * f = (img.height : Int)) := by
        rintro ⟨-, h2⟩
        nlinarith
      rw [if_neg hne, if_pos]
      left
      rw [hw]
      simp
    · have hw1 : (1 : Int) ≤ (img.width : Int) := by exact_mod_cast hw
      have hne : ¬((img.width : Int) * f = (img.width : Int)
          ∧ (img.height : Int) * f = (img.height : Int)) := by
        rintro ⟨h2, -⟩
        nlinarith
      rw [if_neg hne, if_pos]
      right
      rw [hh]
      simp
  simp only [ImageEnhancer.enhance, hff, if_pos h1, hup]

/-- Witness for C4 (amended) on a concrete 0-by-5 raster upscaled by 2. -/
theorem c4_upscale_zero_dim_error_witness :
    ImageEnhancer.enhance opsDemo defaultEnhConfig upscaleTwoArgs zeroWidthImage
      = .error .invalidDimensions :=
  c4_upscale_zero_dim_error opsDemo defaultEnhConfig upscaleTwoArgs zeroWidthImage 2
    rfl (by decide) (Or.inl ⟨rfl, by decide⟩)

/-- Counterexample to C4 as stated: a 0-by-0 raster has zero width and
height, yet `enhance` with upscale factor 2 does not fail with the
dimension error — the upscaled target size `(0, 0)` equals the source
size, so `resize` returns a copy and the pipeline runs on. -/
theorem c4_as_stated_false_at_zero_zero :
    ImageEnhancer.enhance opsDemo defaultEnhConfig upscaleTwoArgs zeroZeroImage
      ≠ .error .invalidDimensions := by
  intro h
  have e1 : isOkE (ImageEnhancer.enhance opsDemo defaultEnhConfig upscaleTwoArgs zeroZeroImage)
      = true := rfl
  rw [h] at e1
  exact absurd e1 (by decide)

theorem sharpenF_width (ops : PILOps) (img : Image) (amount : ℚ) :
    (sharpenF ops img amount).width = img.width := by
  unfold sharpenF
  split <;> rfl

theorem sharpenF_height (ops : PILOps) (img : Image) (amount : ℚ) :
    (sharpenF ops img amount).height = img.height := by
  unfold sharpenF
  split <;> rfl

/-- Claim C6, amended to sources with positive dimensions: for every
raster of positive width and height and every positive integer scale,
`super_resolution` is exactly the two-step pipeline upscale-then-sharpen
with the fixed amount `0.3`, is independent of the enhancement
configuration, and returns a raster of width `w*s` and height `h*s`.
(A source with exactly one zero dimension makes the upscale fail
instead of returning a scaled raster — see the counterexample.) -/
theorem c6_super_resolution_dims (ops : PILOps) (cfg : EnhConfig) (img : Image)
    (s : Int) (hw : 0 < img.width) (hh : 0 < img.height) (hs : 0 < s) :
    ImageEnhancer.super_resolution ops cfg img s
      = (upscaleF ops (loadImage img) s).map (fun result => sharpenF ops result (3 / 10))
    ∧ (∀ cfg' : EnhConfig, ImageEnhancer.super_resolution ops cfg' img s
        = ImageEnhancer.super_resolution ops cfg img s)
    ∧ ∃ out, ImageEnhancer.super_resolution ops cfg img s = .ok out
        ∧ out.width = ((img.width : Int) * s).toNat
        ∧ out.height = ((img.height : Int) * s).toNat := by
  refine ⟨rfl, fun cfg' => rfl, ?_⟩
  simp only [ImageEnhancer.super_resolution, upscaleF, pilResize, loadImage]
  by_cases hpair : ((img.width : Int) * s = (img.width : Int)
      ∧ (img.height : Int) * s = (img.height : Int))
  · rw [if_pos hpair]
    refine ⟨sharpenF ops img (3 / 10), rfl, ?_, ?_⟩
    · rw [sharpenF_width, hpair.1]
      simp
    · rw [sharpenF_height, hpair.2]
      simp
  · rw [if_neg hpair, if_neg ?hdim]
    case hdim =>
      have hwpos : (0 : Int) < (img.width : Int) * s :=
        mul_pos (by exact_mod_cast hw) hs
      have hhpos : (0 : Int) < (img.height : Int) * s :=
        mul_pos (by exact_mod_cast hh) hs
      push_neg
      omega
    exact ⟨_, rfl, by rw [sharpenF_width], by rw [sharpenF_height]⟩

/-- Witness for C6 (amended): a 100-by-100 source with scale 3 yields a
300-by-300 result. -/
theorem c6_super_resolution_dims_witness :
    ∃ out, ImageEnhancer.super_resolution opsDemo defaultEnhConfig hundredImage 3
        = .ok out ∧ out.width = 300 ∧ out.height = 300 := by
  obtain ⟨h1, h2, out, h3, h4, h5⟩ := c6_super_resolution_dims opsDemo defaultEnhConfig
    hundredImage 3 (by decide) (by decide) (by decide)
  exact ⟨out, h3, h4.trans (by decide), h5.trans (by decide)⟩

/-- Counterexample to C6 as stated: on a 0-by-5 source with scale 2 the
claimed 0-by-10 result does not exist — `super_resolution` fails inside
the upscale because the target width is zero. -/
theorem c6_as_stated_false_at_zero_width :
    ¬ ∃ out, ImageEnhancer.super_resolution opsDemo defaultEnhConfig zeroWidthImage 2
        = .ok out ∧ out.width = 0 ∧ out.height = 10 := by
  rintro ⟨out, hout, -, -⟩
  have e1 : isOkE (ImageEnhancer.super_resolution opsDemo defaultEnhConfig zeroWidthImage 2)
      = false := rfl
  rw [hout] at e1
  simp [isOkE] at e1

/-- Claim C7: `generate_from_template` fails with the not-found error
when no template of the given name exists.  Otherwise (for kwargs with
distinct keys, as Python guarantees) it builds a request whose prompt is
the formatted template prompt, whose parameters are
`template.parameters` merged with the caller's kwargs with the kwargs
winning on key conflicts, and whose `negative_prompt` is the caller's
value whenever one was supplied, and the template's stored value when
neither the kwargs nor `template.parameters` carry one. -/
theorem c7_generate_from_template_spec (store : List (String × Template))
    (name : String) (vars overrides : List (String × String))
    (hnd : (overrides.map Prod.fst).Nodup) :
    (TemplateManager.get_template store name = none →
        ImageGenerator.generate_from_template store name vars overrides
          = .error .templateNotFound)
    ∧ (∀ t, TemplateManager.get_template store name = some t →
        ∀ p, t.format_prompt vars = .ok p →
        ∃ req, ImageGenerator.generate_from_template store name vars overrides = .ok req
          ∧ req.prompt = p
          ∧ (∀ k, k ≠ "negative_prompt" →
              dictGet req.params k = (dictGet overrides k).or (dictGet t.parameters k))
          ∧ (∀ v, dictGet overrides "negative_prompt" = some v →
              dictGet req.params "negative_prompt" = some v)
          ∧ (dictGet overrides "negative_prompt" = none →
              dictGet t.parameters "negative_prompt" = none →
              dictGet req.params "negative_prompt" = some t.negative_prompt)) := by
  constructor
  · intro hmiss
    simp [ImageGenerator.generate_from_template, hmiss]
  · intro t ht p hp
    have hmerge : ∀ k, dictGet (dictUpdate t.parameters overrides) k
        = (dictGet overrides k).or (dictGet t.parameters k) :=
      fun k => dictGet_dictUpdate t.parameters overrides k hnd
    simp only [ImageGenerator.generate_from_template, ht, hp]
    by_cases hnp : (dictGet (dictUpdate t.parameters overrides) "negative_prompt").isSome
    · rw [if_pos hnp]
      refine ⟨_, rfl, rfl, ?_, ?_, ?_⟩
      · intro k _
        exact hmerge k
      · intro v hv
        rw [hmerge "negative_prompt", hv]
        rfl
      · intro h1 h2
        rw [hmerge "negative_prompt", h1, h2] at hnp
        simp [Option.or] at hnp
    · rw [if_neg hnp]
      refine ⟨_, rfl, rfl, ?_, ?_, ?_⟩
      · intro k hk
        rw [dictGet_dictSet]
        rw [if_neg (fun he => hk he.symm)]
        exact hmerge k
      · intro v hv
        rw [hmerge "negative_prompt", hv] at hnp
        simp [Option.or] at hnp
      · intro h1 h2
        rw [dictGet_dictSet]
        simp

/-- A concrete template for the C7 witness: prompt `"x {v}"`, stored
negative prompt `"neg"`, one stored parameter. -/
def guidanceTemplate : Template :=
  Template.init "tpl" "demo" "x {v}" (some "neg") none
    (some [("guidance", "8")]) none

/-- Witness for C7: on a one-template store, a hit formats the prompt,
lets the caller's `guidance` override the stored one, keeps the caller's
extra key, and defaults `negative_prompt` to the stored value; a miss
fails with the not-found error. -/
theorem c7_generate_from_template_spec_witness :
    (∃ req, ImageGenerator.generate_from_template [("tpl", guidanceTemplate)] "tpl"
        [("v", "V")] [("steps", "50"), ("guidance", "9")] = .ok req
      ∧ req.prompt = "x V"
      ∧ dictGet req.params "guidance" = some "9"
      ∧ dictGet req.params "steps" = some "50"
      ∧ dictGet req.params "negative_prompt" = some "neg")
    ∧ ImageGenerator.generate_from_template [("tpl", guidanceTemplate)] "missing"
        [("v", "V")] [("steps", "50"), ("guidance", "9")] = .error .templateNotFound := by
  have happ := c7_generate_from_template_spec [("tpl", guidanceTemplate)] "tpl"
    [("v", "V")] [("steps", "50"), ("guidance", "9")] (by decide)
  obtain ⟨req, h1, h2, h3, h4, h5⟩ := happ.2 guidanceTemplate rfl "x V" rfl
  have hmiss := (c7_generate_from_template_spec [("tpl", guidanceTemplate)] "missing"
    [("v", "V")] [("steps", "50"), ("guidance", "9")] (by decide)).1 rfl
  exact ⟨⟨req, h1, h2, h3 "guidance" (by decide), h3 "steps" (by decide), h5 rfl rfl⟩, hmiss⟩

end CopilotImageAI
